import Mathlib

/-!
Verification development for the `ai-storyteller` repository.

Python strings are modelled as lists of natural-number code points
(`PyStr`).  Python's `str.lower` / `str.upper` are modelled on the ASCII
letter ranges; `str.strip` is modelled on the ASCII whitespace set.  These
suffice for every property below, whose witnesses are ASCII.  External
library calls (the JSON parser, the network-backed provider SDKs, the MCP
tool transport) are modelled as oracle parameters; everything the
repository itself computes is translated directly from the source.
-/

namespace Storyteller

/-- A Python string as its list of code points. -/
abbrev PyStr := List Nat

/-- Code points of a Lean string literal, used to write `PyStr` constants. -/
def strN (s : String) : PyStr := s.data.map Char.toNat

/-- Python `str.lower` on one code point (ASCII range, identity elsewhere). -/
def lowerA (n : Nat) : Nat := if 65 ≤ n ∧ n ≤ 90 then n + 32 else n

/-- Python `str.upper` on one code point (ASCII range, identity elsewhere). -/
def upperA (n : Nat) : Nat := if 97 ≤ n ∧ n ≤ 122 then n - 32 else n

/-- Python `str.lower`. -/
def lowerN (s : PyStr) : PyStr := s.map lowerA

/-- Python `str.upper`. -/
def upperN (s : PyStr) : PyStr := s.map upperA

/-- ASCII whitespace, the fragment of Python's `str.strip` default set
relevant here. -/
def isWS (n : Nat) : Bool := n == 32 || n == 9 || n == 10 || n == 13 || n == 11 || n == 12

/-- Python `str.strip()`: drop whitespace from both ends. -/
def stripN (s : PyStr) : PyStr := ((s.dropWhile isWS).reverse.dropWhile isWS).reverse

/-- Python `str.startswith`. -/
def startsWithN : PyStr → PyStr → Bool
  | _, [] => true
  | [], _ :: _ => false
  | a :: s, b :: p => a == b && startsWithN s p

/-- Python's substring test `pat in s`. -/
def containsN : PyStr → PyStr → Bool
  | [], pat => startsWithN [] pat
  | a :: r, pat => startsWithN (a :: r) pat || containsN r pat

/-- Python `"\n".join`. -/
def joinNL : List PyStr → PyStr
  | [] => []
  | [x] => x
  | x :: y :: r => x ++ 10 :: joinNL (y :: r)

/-- Whether a string holds an ASCII uppercase letter. -/
def hasUpperA (s : PyStr) : Bool := s.any (fun n => decide (65 ≤ n) && decide (n ≤ 90))

/-! ## lore.py: the `LoreManager` knowledge corpus

The in-memory `lore_cache` dict is an association list from topic to
content, in insertion order, first-match lookup. -/

/-- Python `dict` lookup (`dict.get` with a `None` default) on an
association list. -/
def lookupA : List (PyStr × PyStr) → PyStr → Option PyStr
  | [], _ => none
  | (k, v) :: r, key => if k = key then some v else lookupA r key

/-- Python `dict` assignment `d[k] = v`: replace in place if the key is
present, otherwise append. -/
def dictInsert : List (PyStr × PyStr) → PyStr → PyStr → List (PyStr × PyStr)
  | [], k, v => [(k, v)]
  | (k0, v0) :: r, k, v => if k0 = k then (k0, v) :: r else (k0, v0) :: dictInsert r k v

/-- `LoreManager._load_lore` (lore.py lines 11-21): store each readable
file's content under the file's base name verbatim (`file_path.stem`,
not lower-cased).  The argument is the (stem, content) list the directory
glob produced. -/
def load_lore (files : List (PyStr × PyStr)) : List (PyStr × PyStr) :=
  files.foldl (fun cache f => dictInsert cache f.1 f.2) []

/-- `LoreManager.get_lore` (lore.py lines 23-25): look the lower-cased
topic up in the cache. -/
def get_lore (cache : List (PyStr × PyStr)) (topic : PyStr) : Option PyStr :=
  lookupA cache (lowerN topic)

/-- One iteration of the `search_lore` loop (lore.py lines 39-46): the
block contributed by a document, if it matches the lower-cased query
`q`.  The first test is `q in topic` on the topic as stored; the second
is `q in content.lower()`. -/
def entryBlock (q t c : PyStr) : Option PyStr :=
  if containsN t q = true then
    some (strN "--- " ++ upperN t ++ strN " ---\n" ++ c ++ strN "\n")
  else if containsN (lowerN c) q = true then
    some (strN "--- " ++ upperN t ++ strN " (Relevant Content) ---\n" ++ c ++ strN "\n")
  else none

/-- The `results` list accumulated by `search_lore`. -/
def searchResults (cache : List (PyStr × PyStr)) (q : PyStr) : List PyStr :=
  cache.filterMap (fun p => entryBlock q p.1 p.2)

/-- The fixed no-match sentinel of `search_lore` (lore.py line 49). -/
def sentinel : PyStr := strN "No specific lore found for this query."

/-- `LoreManager.search_lore` (lore.py lines 31-51). -/
def search_lore (cache : List (PyStr × PyStr)) (query : PyStr) : PyStr :=
  let q := lowerN query
  let results := searchResults cache q
  if results = [] then sentinel else joinNL results

/-- The matching rule in the spec's words, for comparison with the code:
the query occurs case-insensitively in the topic name or in the body. -/
def specMatch (q t c : PyStr) : Bool :=
  containsN (lowerN t) (lowerN q) || containsN (lowerN c) (lowerN q)

example : strN "ab" = [97, 98] := by decide
example : lowerN (strN "AbC") = strN "abc" := by decide
example : search_lore [] (strN "x") = sentinel := by decide
example : search_lore [(strN "dragon", strN "Ancient red dragon.")] (strN "DRAGON")
    = strN "--- DRAGON ---\n" ++ strN "Ancient red dragon." ++ strN "\n" := by decide
example : get_lore [(strN "Dragon", strN "x")] (strN "Dragon") = none := by decide

/-! ## Lemmas about the string model -/

theorem lowerA_upperA (n : Nat) : lowerA (upperA n) = lowerA n := by
  unfold lowerA upperA
  by_cases h : 97 ≤ n ∧ n ≤ 122
  · rw [if_pos h, if_pos (by omega : 65 ≤ n - 32 ∧ n - 32 ≤ 90),
      if_neg (by omega : ¬ (65 ≤ n ∧ n ≤ 90))]
    omega
  · rw [if_neg h]

theorem lowerN_upperN (s : PyStr) : lowerN (upperN s) = lowerN s := by
  unfold lowerN upperN
  rw [List.map_map]
  exact List.map_congr_left fun a _ => lowerA_upperA a

theorem lowerA_not_upper (n : Nat) : ¬ (65 ≤ lowerA n ∧ lowerA n ≤ 90) := by
  unfold lowerA; split <;> omega

theorem hasUpperA_lowerN (s : PyStr) : hasUpperA (lowerN s) = false := by
  unfold hasUpperA lowerN
  rw [List.any_map, List.any_eq_false]
  intro a _
  simp only [Function.comp_apply, Bool.and_eq_true, decide_eq_true_eq, not_and]
  intro h1 h2
  exact lowerA_not_upper a ⟨h1, h2⟩

theorem startsWithN_append (p s : PyStr) : startsWithN (p ++ s) p = true := by
  induction p with
  | nil => cases s <;> rfl
  | cons a r ih => simp [startsWithN, ih]

theorem containsN_of_split (pre pat post : PyStr) :
    containsN (pre ++ (pat ++ post)) pat = true := by
  induction pre with
  | nil =>
    cases h : pat ++ post with
    | nil =>
      have hp : pat = [] := by
        cases pat with
        | nil => rfl
        | cons a r => simp at h
      simp [hp, containsN, startsWithN]
    | cons a r =>
      simp only [List.nil_append, h, containsN]
      rw [← h, startsWithN_append]
      simp
  | cons a r ih =>
    simp only [List.cons_append, containsN, List.append_eq, ih, Bool.or_true]

theorem joinNL_cons (b : PyStr) (t : List PyStr) :
    ∃ s, joinNL (b :: t) = b ++ s := by
  cases t with
  | nil => exact ⟨[], by simp [joinNL]⟩
  | cons y r => exact ⟨10 :: joinNL (y :: r), rfl⟩

theorem joinNL_mem_split (b : PyStr) (l : List PyStr) (h : b ∈ l) :
    ∃ pre post, joinNL l = pre ++ (b ++ post) := by
  induction l with
  | nil => cases h
  | cons x t ih =>
    rcases List.mem_cons.mp h with h1 | h2
    · subst h1
      obtain ⟨s, hs⟩ := joinNL_cons b t
      exact ⟨[], s, by simpa using hs⟩
    · have ht : t ≠ [] := List.ne_nil_of_mem h2
      obtain ⟨y, r, rfl⟩ := List.exists_cons_of_ne_nil ht
      obtain ⟨pre, post, hp⟩ := ih h2
      refine ⟨x ++ 10 :: pre, post, ?_⟩
      simp [joinNL, hp]

theorem containsN_of_mem_joinNL (b : PyStr) (l : List PyStr) (h : b ∈ l) :
    containsN (joinNL l) b = true := by
  obtain ⟨pre, post, hp⟩ := joinNL_mem_split b l h
  rw [hp]; exact containsN_of_split pre b post

theorem entryBlock_head (q t c b : PyStr) (h : entryBlock q t c = some b) :
    ∃ rest, b = 45 :: rest := by
  unfold entryBlock at h
  split at h
  · exact ⟨_, (Option.some.inj h).symm⟩
  · split at h
    · exact ⟨_, (Option.some.inj h).symm⟩
    · cases h

theorem joinNL_ne_sentinel (l : List PyStr)
    (h : ∀ b ∈ l, ∃ rest, b = 45 :: rest) (hne : l ≠ []) :
    joinNL l ≠ sentinel := by
  obtain ⟨b, t, rfl⟩ := List.exists_cons_of_ne_nil hne
  obtain ⟨r0, hb⟩ := h b (List.mem_cons_self b t)
  obtain ⟨s, hs⟩ := joinNL_cons b t
  intro heq
  rw [hs, hb] at heq
  have h1 := congrArg List.head? heq
  have h2 : List.head? sentinel = some 78 := by decide
  rw [h2, List.cons_append, List.head?_cons] at h1
  exact absurd (Option.some.inj h1) (by omega)

/-! ## Claim theorems for the knowledge corpus -/

/-- C5.  `search_lore` lowers its query before any comparison, so
`search_lore cache q = search_lore cache (q.upper())` for every corpus
state and query; and on an empty corpus it returns the fixed sentinel
for every query. -/
theorem search_lore_query_case_insensitive (cache : List (PyStr × PyStr)) (q : PyStr) :
    search_lore cache q = search_lore cache (upperN q)
      ∧ search_lore [] q = sentinel := by
  constructor
  · simp only [search_lore, lowerN_upperN]
  · rfl

/-- C4 counterexample.  With the corpus holding the single document
topic `Dragon` (an upper-case stored topic name) with body `x`, the
query `dragon` matches case-insensitively in the topic name per the
claim (`specMatch` is the claim's matching rule), yet `search_lore`
returns the no-match sentinel and the document is not included: the
code compares the lower-cased query with the topic name as stored,
case-sensitively. -/
theorem search_lore_topic_case_counterexample :
    specMatch (strN "dragon") (strN "Dragon") (strN "x") = true
      ∧ search_lore [(strN "Dragon", strN "x")] (strN "dragon") = sentinel := by
  decide

/-- C4 amended.  For every corpus state and query: the result is the
no-match sentinel (which is non-empty) exactly when no document
matches, where a document matches when the lower-cased query occurs in
the topic name as stored (case-sensitive in the topic) or occurs
case-insensitively in the body (`entryBlock` returns its block exactly
in those cases); and every matching document's block — the full body
wrapped with a header naming the upper-cased topic and whether the
match was on topic or content — occurs in the result in full. -/
theorem search_lore_spec (cache : List (PyStr × PyStr)) (query : PyStr) :
    (search_lore cache query = sentinel
        ↔ ∀ p ∈ cache, entryBlock (lowerN query) p.1 p.2 = none)
      ∧ (∀ t c b, (t, c) ∈ cache → entryBlock (lowerN query) t c = some b →
          containsN (search_lore cache query) b = true)
      ∧ sentinel ≠ ([] : PyStr) := by
  refine ⟨⟨?_, ?_⟩, ?_, ?_⟩
  · intro hs p hp
    by_contra hne
    obtain ⟨b, hb⟩ := Option.ne_none_iff_exists'.mp hne
    have hmem : b ∈ searchResults cache (lowerN query) := by
      simp only [searchResults, List.mem_filterMap]
      exact ⟨p, hp, hb⟩
    have hres : searchResults cache (lowerN query) ≠ [] := List.ne_nil_of_mem hmem
    have : search_lore cache query = joinNL (searchResults cache (lowerN query)) := by
      simp only [search_lore, if_neg hres]
    rw [this] at hs
    refine joinNL_ne_sentinel _ ?_ hres hs
    intro x hx
    obtain ⟨p', hp', hx'⟩ := List.mem_filterMap.mp hx
    exact entryBlock_head _ _ _ _ hx'
  · intro hall
    have : searchResults cache (lowerN query) = [] := by
      simp only [searchResults, List.filterMap_eq_nil_iff]
      intro p hp; exact hall p hp
    simp [search_lore, this]
  · intro t c b hm hb
    have hmem : b ∈ searchResults cache (lowerN query) := by
      simp only [searchResults, List.mem_filterMap]
      exact ⟨(t, c), hm, hb⟩
    have hres : searchResults cache (lowerN query) ≠ [] := List.ne_nil_of_mem hmem
    have : search_lore cache query = joinNL (searchResults cache (lowerN query)) := by
      simp only [search_lore, if_neg hres]
    rw [this]
    exact containsN_of_mem_joinNL b _ hmem
  · decide

/-- C4 amended, witness: the spec's own scenario — the document
`dragon` with body `Ancient red dragon, feared by all.` is included in
full, with its header, in the result of querying `dragon`. -/
theorem search_lore_spec_witness :
    containsN
      (search_lore [(strN "dragon", strN "Ancient red dragon, feared by all.")] (strN "dragon"))
      (strN "--- DRAGON ---\n" ++ strN "Ancient red dragon, feared by all." ++ strN "\n")
      = true :=
  (search_lore_spec [(strN "dragon", strN "Ancient red dragon, feared by all.")]
      (strN "dragon")).2.1
    (strN "dragon") (strN "Ancient red dragon, feared by all.") _
    (by decide) (by decide)

/-- C10.  `_load_lore` stores a document under the file's base name
verbatim while `get_lore` looks up the lower-cased topic, so a binding
whose stored key holds an upper-case letter is invisible to `get_lore`
for every input; on a corpus holding only that file, `get_lore` returns
`none` for every input, the file's own base name included. -/
theorem get_lore_uppercase_unreachable (k v : PyStr) (cache : List (PyStr × PyStr))
    (t : PyStr) (hk : hasUpperA k = true) :
    load_lore [(k, v)] = [(k, v)]
      ∧ get_lore ((k, v) :: cache) t = get_lore cache t
      ∧ get_lore [(k, v)] t = none := by
  have hne : k ≠ lowerN t := by
    intro h
    rw [h, hasUpperA_lowerN] at hk
    cases hk
  refine ⟨rfl, ?_, ?_⟩
  · simp only [get_lore, lookupA, if_neg hne]
  · simp only [get_lore, lookupA, if_neg hne]

/-- C10 witness: a corpus loaded from the single file `Dragon.md`
yields `none` even for the query `Dragon` itself. -/
theorem get_lore_uppercase_unreachable_witness :
    get_lore [(strN "Dragon", strN "ancient wyrm")] (strN "Dragon") = none :=
  (get_lore_uppercase_unreachable (strN "Dragon") (strN "ancient wyrm") []
      (strN "Dragon") (by decide)).2.2

/-! ## ai.py: the `AIGateway` generation backend

The three `_generate_*` methods wrap network SDK calls; each is
modelled as an oracle that either returns a reply string or raises
(`PyResult.exn` carries `str(e)`).  `generate_response` itself is the
repository's code: the provider dispatch, the unknown-provider string,
and the `try/except` that folds any raised exception into an in-band
error string.  The second component of its result records which
backend methods were invoked (empty means no provider code, hence no
network, ran). -/

/-- Outcome of a Python call: a value, or a raised exception rendered
by `str(e)`. -/
inductive PyResult (α : Type) where
  | ok : α → PyResult α
  | exn : PyStr → PyResult α

/-- `AIGateway.generate_response` (ai.py lines 32-52), with the three
`_generate_*` methods as oracles.  Returns the reply string and the
list of provider tags whose backend method was invoked. -/
def generate_response
    (bOpenai bAnthropic bGemini : PyStr → PyStr → PyStr → PyResult PyStr)
    (prompt system_instruction provider model : PyStr) : PyStr × List PyStr :=
  if provider = strN "openai" then
    match bOpenai prompt system_instruction model with
    | .ok s => (s, [provider])
    | .exn m => (strN "Error generating response with " ++ provider ++ strN ": " ++ m, [provider])
  else if provider = strN "anthropic" then
    match bAnthropic prompt system_instruction model with
    | .ok s => (s, [provider])
    | .exn m => (strN "Error generating response with " ++ provider ++ strN ": " ++ m, [provider])
  else if provider = strN "gemini" then
    match bGemini prompt system_instruction model with
    | .ok s => (s, [provider])
    | .exn m => (strN "Error generating response with " ++ provider ++ strN ": " ++ m, [provider])
  else
    (strN "Error: Unknown provider \x27" ++ provider ++ strN "\x27", [])

/-- The unused `full_prompt` computed at ai.py line 40:
`system_instruction + "\n\n" + prompt` when the system instruction is
non-empty (truthy), else the prompt alone. -/
def full_prompt (system_instruction prompt : PyStr) : PyStr :=
  if system_instruction = [] then prompt else system_instruction ++ strN "\n\n" ++ prompt

/-- The request `_generate_gemini` (ai.py lines 83-98) issues when the
key is configured: with a non-empty system instruction, the model
instance is re-constructed with the instruction attached, and
`generate_content` is called on the raw prompt either way. -/
structure GeminiRequest where
  constructorSystemInstruction : Option PyStr
  userMessage : PyStr
deriving DecidableEq

/-- The request shape built by `_generate_gemini`. -/
def gemini_request (prompt system_instruction : PyStr) : GeminiRequest :=
  { constructorSystemInstruction :=
      if system_instruction = [] then none else some system_instruction,
    userMessage := prompt }

/-! ## Claim theorems for the generation backend -/

/-- C6.  For every provider tag other than `openai`, `anthropic` and
`gemini`, and all prompt, system-instruction and model arguments,
`generate_response` returns exactly the interpolated
`Error: Unknown provider` string, and invokes no backend method (so no
network call occurs). -/
theorem generate_response_unknown_provider
    (bOpenai bAnthropic bGemini : PyStr → PyStr → PyStr → PyResult PyStr)
    (prompt system_instruction provider model : PyStr)
    (h1 : provider ≠ strN "openai") (h2 : provider ≠ strN "anthropic")
    (h3 : provider ≠ strN "gemini") :
    generate_response bOpenai bAnthropic bGemini prompt system_instruction provider model
      = (strN "Error: Unknown provider \x27" ++ provider ++ strN "\x27", []) := by
  simp only [generate_response, if_neg h1, if_neg h2, if_neg h3]

/-- C6 witness: the spec's own scenario, provider tag
`carrier-pigeon`. -/
theorem generate_response_unknown_provider_witness :
    generate_response (fun _ _ _ => .ok []) (fun _ _ _ => .ok []) (fun _ _ _ => .ok [])
        (strN "hi") [] (strN "carrier-pigeon") (strN "gpt-4o")
      = (strN "Error: Unknown provider \x27" ++ strN "carrier-pigeon" ++ strN "\x27", []) :=
  generate_response_unknown_provider _ _ _ _ _ _ _
    (by decide) (by decide) (by decide)

/-- C7.  For each of the three providers, whenever the underlying
backend call raises, `generate_response` catches the exception and
returns the in-band string built from the provider tag and the
exception detail.  The fault never propagates: `generate_response` is
a total function into strings. -/
theorem generate_response_catches_exceptions
    (bOpenai bAnthropic bGemini : PyStr → PyStr → PyStr → PyResult PyStr)
    (prompt system_instruction provider model msg : PyStr)
    (h : (provider = strN "openai" ∧ bOpenai prompt system_instruction model = .exn msg)
       ∨ (provider = strN "anthropic" ∧ bAnthropic prompt system_instruction model = .exn msg)
       ∨ (provider = strN "gemini" ∧ bGemini prompt system_instruction model = .exn msg)) :
    (generate_response bOpenai bAnthropic bGemini prompt system_instruction provider model).1
      = strN "Error generating response with " ++ provider ++ strN ": " ++ msg := by
  rcases h with ⟨hp, he⟩ | ⟨hp, he⟩ | ⟨hp, he⟩ <;> subst hp <;> unfold generate_response
  · rw [if_pos rfl, he]
  · rw [if_neg (show ¬ strN "anthropic" = strN "openai" by decide), if_pos rfl, he]
  · rw [if_neg (show ¬ strN "gemini" = strN "openai" by decide),
      if_neg (show ¬ strN "gemini" = strN "anthropic" by decide), if_pos rfl, he]

/-- C7 witness: an anthropic transport failure is folded into the
error string. -/
theorem generate_response_catches_exceptions_witness :
    (generate_response (fun _ _ _ => .ok []) (fun _ _ _ => .exn (strN "quota"))
        (fun _ _ _ => .ok []) (strN "hi") [] (strN "anthropic") (strN "claude")).1
      = strN "Error generating response with " ++ strN "anthropic" ++ strN ": " ++ strN "quota" :=
  generate_response_catches_exceptions _ _ _ _ _ _ _ _
    (Or.inr (Or.inl ⟨rfl, rfl⟩))

/-- C8 counterexample.  With system instruction `S` and prompt `P`, the
gemini request's user message is the raw prompt `P`, not the
concatenation `S`-blank-line-`P` that `full_prompt` computes; the
instruction travels through the model constructor instead. -/
theorem gemini_no_concatenation_counterexample :
    (gemini_request (strN "P") (strN "S")).userMessage ≠ full_prompt (strN "S") (strN "P")
      ∧ (gemini_request (strN "P") (strN "S")).constructorSystemInstruction
          = some (strN "S") := by
  decide

/-- C8 amended.  When a non-empty system instruction is given, the
gemini provider attaches it via the model constructor's
system-instruction channel and sends the raw prompt alone as the user
message; the concatenation `system_instruction + blank line + prompt`
is computed as `full_prompt` at the top of `generate_response` but is
never what is sent. -/
theorem gemini_request_shape (prompt system_instruction : PyStr)
    (h : system_instruction ≠ []) :
    (gemini_request prompt system_instruction).userMessage = prompt
      ∧ (gemini_request prompt system_instruction).constructorSystemInstruction
          = some system_instruction
      ∧ full_prompt system_instruction prompt
          = system_instruction ++ strN "\n\n" ++ prompt := by
  refine ⟨rfl, ?_, ?_⟩ <;> simp [gemini_request, full_prompt, h]

/-- C8 amended, witness. -/
theorem gemini_request_shape_witness :
    (gemini_request (strN "P") (strN "S")).userMessage = strN "P"
      ∧ (gemini_request (strN "P") (strN "S")).constructorSystemInstruction = some (strN "S")
      ∧ full_prompt (strN "S") (strN "P") = strN "S" ++ strN "\n\n" ++ strN "P" :=
  gemini_request_shape (strN "P") (strN "S") (by decide)

/-! ## cli.py: the `chat_loop` turn orchestrator

Per-turn control flow of cli.py lines 144-218, after the system
instruction has been assembled.  `json.loads` is an oracle returning
the parsed object or `none` for a `JSONDecodeError`; since every
tool-call candidate starts (after stripping) with an opening brace, a
successful parse of a candidate is always a JSON object, modelled as
an association list with string keys.  The backend
(`ai.generate_response`) and the MCP transport (`call_tool`, whose
result the code only ever interpolates into text) are oracles too.  A
`TurnTrace` records everything a turn does: the generation requests
issued in order, whether a JSON parse was attempted, the tool
invocations performed, the text displayed, and the events logged. -/

/-- A Python value as produced by `json.loads`. -/
inductive PyVal where
  | str : PyStr → PyVal
  | intV : Int → PyVal
  | boolV : Bool → PyVal
  | nullV : PyVal
  | arr : List PyVal → PyVal
  | obj : List (PyStr × PyVal) → PyVal

/-- A JSON object: a Python dict with string keys. -/
abbrev PyDict := List (PyStr × PyVal)

/-- Python `dict.get(k)`: `Option.none` models Python `None`. -/
def dGet : PyDict → PyStr → Option PyVal
  | [], _ => none
  | (k, v) :: r, key => if k = key then some v else dGet r key

/-- Python `dict.get(k, dflt)`. -/
def dGetD (d : PyDict) (k : PyStr) (dflt : PyVal) : PyVal := (dGet d k).getD dflt

/-- Python equality `t == name` where `name` is a string and `t` is a
JSON value or `None`: true exactly for the equal string. -/
def pyEqStr : Option PyVal → PyStr → Bool
  | some (.str s), t => s = t
  | _, _ => false

/-- The tool-call sniff at cli.py line 187:
`response.strip().startswith("\x7b") and "\"tool\"" in response`. -/
def isToolCandidate (r : PyStr) : Bool :=
  startsWithN (stripN r) (strN "\x7b") && containsN r (strN "\"tool\"")

/-- A discovered MCP tool as the orchestrator consumes it. -/
structure Tool where
  name : PyStr
  server_name : PyStr
deriving DecidableEq

/-- One `ai.generate_response` request as issued by `chat_loop`. -/
structure GenCall where
  prompt : PyStr
  system_instruction : PyStr
  provider : PyStr
  model : PyStr
deriving DecidableEq

/-- The first generation request of a turn (cli.py lines 176-182): the
raw user utterance with the assembled system instruction. -/
def firstCall (user sysInstr provider model : PyStr) : GenCall :=
  ⟨user, sysInstr, provider, model⟩

/-- The follow-up prompt of cli.py line 205. -/
def followUpPrompt (toolName toolResult : PyStr) : PyStr :=
  strN "Tool " ++ toolName ++ strN " returned: " ++ toolResult
    ++ strN ". Please continue the story."

/-- The two `db.log_event` calls of cli.py lines 217-218, in order. -/
def mkEvents (user final : PyStr) : List PyStr :=
  [strN "User: " ++ user, strN "AI: " ++ final.take 50 ++ strN "..."]

/-- Everything one turn does, in order. -/
structure TurnTrace where
  genCalls : List GenCall
  parseAttempted : Bool
  toolCalls : List (PyStr × PyStr × PyVal)
  displayed : PyStr
  events : List PyStr

/-- One completed turn of `chat_loop` (cli.py lines 176-218): generate,
sniff for a tool call, on success invoke the tool and re-generate once,
then display and log.  `parse` is the `json.loads` oracle, `gen` the
backend oracle, `callTool` the MCP invocation oracle (its result as the
text the code interpolates). -/
def runTurn (tools : List Tool) (parse : PyStr → Option PyDict)
    (gen : GenCall → PyStr) (callTool : PyStr → PyStr → PyVal → PyStr)
    (sysInstr provider model user : PyStr) : TurnTrace :=
  let response := gen (firstCall user sysInstr provider model)
  if isToolCandidate response = true then
    match parse response with
    | none =>
      { genCalls := [firstCall user sysInstr provider model], parseAttempted := true,
        toolCalls := [], displayed := response, events := mkEvents user response }
    | some d =>
      let toolName := dGet d (strN "tool")
      let toolArgs := dGetD d (strN "args") (PyVal.obj [])
      match tools.find? (fun t => pyEqStr toolName t.name) with
      | none =>
        { genCalls := [firstCall user sysInstr provider model], parseAttempted := true,
          toolCalls := [], displayed := response, events := mkEvents user response }
      | some t =>
        let toolResult := callTool t.server_name t.name toolArgs
        let c2 : GenCall := ⟨followUpPrompt t.name toolResult, sysInstr, provider, model⟩
        let response2 := gen c2
        { genCalls := [firstCall user sysInstr provider model, c2], parseAttempted := true,
          toolCalls := [(t.server_name, t.name, toolArgs)],
          displayed := response2, events := mkEvents user response2 }
  else
    { genCalls := [firstCall user sysInstr provider model], parseAttempted := false,
      toolCalls := [], displayed := response, events := mkEvents user response }

/-- The exit test at cli.py line 146 wrapped around a turn: an
exact-match (case-insensitively) `exit` or `quit` ends the loop before
anything runs. -/
def chatTurn (tools : List Tool) (parse : PyStr → Option PyDict)
    (gen : GenCall → PyStr) (callTool : PyStr → PyStr → PyVal → PyStr)
    (sysInstr provider model user : PyStr) : Option TurnTrace :=
  if lowerN user = strN "exit" ∨ lowerN user = strN "quit" then none
  else some (runTurn tools parse gen callTool sysInstr provider model user)

/-- Tool resolution on a reply, as `chat_loop` performs it: a candidate
that parses and whose `tool` field equals a discovered tool's name
(first match). -/
def resolvedTool (tools : List Tool) (parse : PyStr → Option PyDict) (r : PyStr) : Option Tool :=
  if isToolCandidate r = true then
    match parse r with
    | none => none
    | some d => tools.find? (fun t => pyEqStr (dGet d (strN "tool")) t.name)
  else none

/-- The `args` value a resolved tool call carries. -/
def parsedArgs (parse : PyStr → Option PyDict) (r : PyStr) : PyVal :=
  match parse r with
  | some d => dGetD d (strN "args") (PyVal.obj [])
  | none => PyVal.obj []

theorem runTurn_unresolved (tools : List Tool) (parse : PyStr → Option PyDict)
    (gen : GenCall → PyStr) (callTool : PyStr → PyStr → PyVal → PyStr)
    (sysInstr provider model user r : PyStr)
    (hr : gen (firstCall user sysInstr provider model) = r)
    (h : resolvedTool tools parse r = none) :
    runTurn tools parse gen callTool sysInstr provider model user
      = { genCalls := [firstCall user sysInstr provider model],
          parseAttempted := isToolCandidate r,
          toolCalls := [], displayed := r, events := mkEvents user r } := by
  unfold runTurn
  rw [hr]
  unfold resolvedTool at h
  by_cases hc : isToolCandidate r = true
  · rw [if_pos hc] at h
    rw [if_pos hc]
    cases hp : parse r with
    | none => rw [hc]
    | some d =>
      rw [hp] at h
      dsimp only at h ⊢
      rw [h, hc]
  · rw [if_neg hc]
    simp only [Bool.not_eq_true] at hc
    rw [hc]

theorem runTurn_resolved (tools : List Tool) (parse : PyStr → Option PyDict)
    (gen : GenCall → PyStr) (callTool : PyStr → PyStr → PyVal → PyStr)
    (sysInstr provider model user r : PyStr) (t : Tool)
    (hr : gen (firstCall user sysInstr provider model) = r)
    (h : resolvedTool tools parse r = some t) :
    runTurn tools parse gen callTool sysInstr provider model user
      = { genCalls := [firstCall user sysInstr provider model,
            ⟨followUpPrompt t.name (callTool t.server_name t.name (parsedArgs parse r)),
             sysInstr, provider, model⟩],
          parseAttempted := true,
          toolCalls := [(t.server_name, t.name, parsedArgs parse r)],
          displayed := gen ⟨followUpPrompt t.name (callTool t.server_name t.name (parsedArgs parse r)),
            sysInstr, provider, model⟩,
          events := mkEvents user (gen ⟨followUpPrompt t.name
            (callTool t.server_name t.name (parsedArgs parse r)), sysInstr, provider, model⟩) } := by
  unfold resolvedTool at h
  by_cases hc : isToolCandidate r = true
  · rw [if_pos hc] at h
    cases hp : parse r with
    | none => rw [hp] at h; cases h
    | some d =>
      rw [hp] at h
      dsimp only at h
      unfold runTurn
      rw [hr, if_pos hc, hp]
      dsimp only
      rw [h]
      unfold parsedArgs
      rw [hp]
  · rw [if_neg hc] at h; cases h

theorem runTurn_events_shape (tools : List Tool) (parse : PyStr → Option PyDict)
    (gen : GenCall → PyStr) (callTool : PyStr → PyStr → PyVal → PyStr)
    (sysInstr provider model user : PyStr) :
    (runTurn tools parse gen callTool sysInstr provider model user).events
      = mkEvents user (runTurn tools parse gen callTool sysInstr provider model user).displayed := by
  cases h : resolvedTool tools parse (gen (firstCall user sysInstr provider model)) with
  | none => rw [runTurn_unresolved tools parse gen callTool sysInstr provider model user _ rfl h]
  | some t => rw [runTurn_resolved tools parse gen callTool sysInstr provider model user _ t rfl h]

/-! ## Claim theorems for the turn orchestrator -/

/-- C1.  The turn attempts a JSON parse of the backend reply `r` if and
only if `r` stripped of surrounding whitespace starts with an opening
brace and `r` contains the literal substring `"tool"` (quotes
included); and whenever the parse oracle fails (a `JSONDecodeError`,
caught at cli.py line 212), the whole reply is the turn's narration —
it is displayed, no tool is invoked, no second generation happens, the
usual two events are logged, and no fault escapes (the turn is a total
function). -/
theorem turn_classifier_narration_on_parse_failure (tools : List Tool)
    (parse : PyStr → Option PyDict) (gen : GenCall → PyStr)
    (callTool : PyStr → PyStr → PyVal → PyStr)
    (sysInstr provider model user r : PyStr)
    (hr : gen (firstCall user sysInstr provider model) = r)
    (hfail : parse r = none) :
    (runTurn tools parse gen callTool sysInstr provider model user).parseAttempted
        = (startsWithN (stripN r) (strN "\x7b") && containsN r (strN "\"tool\""))
      ∧ (runTurn tools parse gen callTool sysInstr provider model user).displayed = r
      ∧ (runTurn tools parse gen callTool sysInstr provider model user).toolCalls = []
      ∧ (runTurn tools parse gen callTool sysInstr provider model user).genCalls
          = [firstCall user sysInstr provider model]
      ∧ (runTurn tools parse gen callTool sysInstr provider model user).events
          = mkEvents user r := by
  have hres : resolvedTool tools parse r = none := by
    unfold resolvedTool
    split
    · rw [hfail]
    · rfl
  rw [runTurn_unresolved tools parse gen callTool sysInstr provider model user r hr hres]
  exact ⟨rfl, rfl, rfl, rfl, rfl⟩

/-- C1 witness: a reply that passes the sniff but fails to parse is
narrated unchanged. -/
theorem turn_classifier_narration_witness :
    (runTurn [] (fun _ => none) (fun _ => strN "\x7bnot json \"tool\"") (fun _ _ _ => [])
        [] [] [] (strN "hi")).parseAttempted
        = (startsWithN (stripN (strN "\x7bnot json \"tool\"")) (strN "\x7b")
            && containsN (strN "\x7bnot json \"tool\"") (strN "\"tool\""))
      ∧ (runTurn [] (fun _ => none) (fun _ => strN "\x7bnot json \"tool\"") (fun _ _ _ => [])
          [] [] [] (strN "hi")).displayed = strN "\x7bnot json \"tool\""
      ∧ (runTurn [] (fun _ => none) (fun _ => strN "\x7bnot json \"tool\"") (fun _ _ _ => [])
          [] [] [] (strN "hi")).toolCalls = []
      ∧ (runTurn [] (fun _ => none) (fun _ => strN "\x7bnot json \"tool\"") (fun _ _ _ => [])
          [] [] [] (strN "hi")).genCalls = [firstCall (strN "hi") [] [] []]
      ∧ (runTurn [] (fun _ => none) (fun _ => strN "\x7bnot json \"tool\"") (fun _ _ _ => [])
          [] [] [] (strN "hi")).events = mkEvents (strN "hi") (strN "\x7bnot json \"tool\"") :=
  turn_classifier_narration_on_parse_failure [] (fun _ => none)
    (fun _ => strN "\x7bnot json \"tool\"") (fun _ _ _ => []) [] [] [] (strN "hi")
    (strN "\x7bnot json \"tool\"") rfl rfl

/-- C2.  A turn issues a second generation request exactly when tool
resolution succeeds — with the same system instruction, provider and
model but the follow-up prompt — and otherwise issues only the first;
the tool invocations of the turn come from the first reply alone (one
on resolution, none otherwise), so a tool call emitted by the second
reply is never executed: the second reply is displayed as-is whatever
it holds. -/
theorem turn_single_regen_iff_resolution (tools : List Tool)
    (parse : PyStr → Option PyDict) (gen : GenCall → PyStr)
    (callTool : PyStr → PyStr → PyVal → PyStr)
    (sysInstr provider model user : PyStr) :
    (resolvedTool tools parse (gen (firstCall user sysInstr provider model)) = none →
        (runTurn tools parse gen callTool sysInstr provider model user).genCalls
            = [firstCall user sysInstr provider model]
          ∧ (runTurn tools parse gen callTool sysInstr provider model user).toolCalls = [])
      ∧ (∀ t, resolvedTool tools parse (gen (firstCall user sysInstr provider model)) = some t →
          (runTurn tools parse gen callTool sysInstr provider model user).genCalls
              = [firstCall user sysInstr provider model,
                 ⟨followUpPrompt t.name (callTool t.server_name t.name
                    (parsedArgs parse (gen (firstCall user sysInstr provider model)))),
                  sysInstr, provider, model⟩]
            ∧ (runTurn tools parse gen callTool sysInstr provider model user).toolCalls
                = [(t.server_name, t.name,
                    parsedArgs parse (gen (firstCall user sysInstr provider model)))]
            ∧ (runTurn tools parse gen callTool sysInstr provider model user).displayed
                = gen ⟨followUpPrompt t.name (callTool t.server_name t.name
                    (parsedArgs parse (gen (firstCall user sysInstr provider model)))),
                  sysInstr, provider, model⟩) := by
  constructor
  · intro h
    rw [runTurn_unresolved tools parse gen callTool sysInstr provider model user _ rfl h]
    exact ⟨rfl, rfl⟩
  · intro t h
    rw [runTurn_resolved tools parse gen callTool sysInstr provider model user _ t rfl h]
    exact ⟨rfl, rfl, rfl⟩

/-- C2 witness: the backend always answers with the same tool-call
JSON; the one discovered tool resolves, is invoked once, the follow-up
request carries the same (empty) system instruction, provider and
model, and the second reply — the very same tool-call JSON — is
displayed rather than executed. -/
theorem turn_single_regen_witness :
    (runTurn [⟨strN "roll_dice", strN "srv"⟩]
        (fun _ => some [(strN "tool", PyVal.str (strN "roll_dice")),
                        (strN "args", PyVal.obj [])])
        (fun _ => strN "\x7b\"tool\": \"roll_dice\", \"args\": \x7b\x7d\x7d")
        (fun _ _ _ => strN "7") [] [] [] (strN "go")).genCalls
        = [firstCall (strN "go") [] [] [],
           ⟨followUpPrompt (strN "roll_dice") (strN "7"), [], [], []⟩]
      ∧ (runTurn [⟨strN "roll_dice", strN "srv"⟩]
          (fun _ => some [(strN "tool", PyVal.str (strN "roll_dice")),
                          (strN "args", PyVal.obj [])])
          (fun _ => strN "\x7b\"tool\": \"roll_dice\", \"args\": \x7b\x7d\x7d")
          (fun _ _ _ => strN "7") [] [] [] (strN "go")).toolCalls
          = [(strN "srv", strN "roll_dice", PyVal.obj [])]
      ∧ (runTurn [⟨strN "roll_dice", strN "srv"⟩]
          (fun _ => some [(strN "tool", PyVal.str (strN "roll_dice")),
                          (strN "args", PyVal.obj [])])
          (fun _ => strN "\x7b\"tool\": \"roll_dice\", \"args\": \x7b\x7d\x7d")
          (fun _ _ _ => strN "7") [] [] [] (strN "go")).displayed
          = strN "\x7b\"tool\": \"roll_dice\", \"args\": \x7b\x7d\x7d" :=
  (turn_single_regen_iff_resolution [⟨strN "roll_dice", strN "srv"⟩]
      (fun _ => some [(strN "tool", PyVal.str (strN "roll_dice")),
                      (strN "args", PyVal.obj [])])
      (fun _ => strN "\x7b\"tool\": \"roll_dice\", \"args\": \x7b\x7d\x7d")
      (fun _ _ _ => strN "7") [] [] [] (strN "go")).2
    ⟨strN "roll_dice", strN "srv"⟩ (by decide)

/-- C3.  A non-exit turn appends exactly two events, in order: first
the raw user utterance prefixed with the user tag, then the turn's
final narration cut to its first 50 code points and suffixed with the
ellipsis marker, prefixed with the AI tag. -/
theorem turn_persists_two_events (tools : List Tool)
    (parse : PyStr → Option PyDict) (gen : GenCall → PyStr)
    (callTool : PyStr → PyStr → PyVal → PyStr)
    (sysInstr provider model user : PyStr)
    (h1 : lowerN user ≠ strN "exit") (h2 : lowerN user ≠ strN "quit") :
    chatTurn tools parse gen callTool sysInstr provider model user
        = some (runTurn tools parse gen callTool sysInstr provider model user)
      ∧ (runTurn tools parse gen callTool sysInstr provider model user).events
          = [strN "User: " ++ user,
             strN "AI: "
               ++ (runTurn tools parse gen callTool sysInstr provider model user).displayed.take 50
               ++ strN "..."] := by
  constructor
  · unfold chatTurn
    rw [if_neg]
    rintro (h | h)
    · exact h1 h
    · exact h2 h
  · rw [runTurn_events_shape]
    rfl

/-- C3 witness. -/
theorem turn_persists_two_events_witness :
    chatTurn [] (fun _ => none) (fun _ => strN "ok") (fun _ _ _ => []) [] [] [] (strN "hi")
        = some (runTurn [] (fun _ => none) (fun _ => strN "ok") (fun _ _ _ => [])
            [] [] [] (strN "hi"))
      ∧ (runTurn [] (fun _ => none) (fun _ => strN "ok") (fun _ _ _ => [])
            [] [] [] (strN "hi")).events
          = [strN "User: " ++ strN "hi",
             strN "AI: "
               ++ (runTurn [] (fun _ => none) (fun _ => strN "ok") (fun _ _ _ => [])
                    [] [] [] (strN "hi")).displayed.take 50
               ++ strN "..."] :=
  turn_persists_two_events [] (fun _ => none) (fun _ => strN "ok") (fun _ _ _ => [])
    [] [] [] (strN "hi") (by decide) (by decide)

/-- C9.  A reply that parses as a JSON object whose `tool` field names
no discovered tool (in particular when no tools were discovered) is
narration: nothing is invoked, no second generation happens, the
literal JSON text is displayed, and it is persisted as the turn's
narration through the usual two events. -/
theorem unresolved_tool_name_is_narration (tools : List Tool)
    (parse : PyStr → Option PyDict) (gen : GenCall → PyStr)
    (callTool : PyStr → PyStr → PyVal → PyStr)
    (sysInstr provider model user r : PyStr) (d : PyDict)
    (hr : gen (firstCall user sysInstr provider model) = r)
    (hp : parse r = some d)
    (hno : ∀ t ∈ tools, pyEqStr (dGet d (strN "tool")) t.name = false) :
    (runTurn tools parse gen callTool sysInstr provider model user).displayed = r
      ∧ (runTurn tools parse gen callTool sysInstr provider model user).toolCalls = []
      ∧ (runTurn tools parse gen callTool sysInstr provider model user).genCalls
          = [firstCall user sysInstr provider model]
      ∧ (runTurn tools parse gen callTool sysInstr provider model user).events
          = mkEvents user r := by
  have hfind : tools.find? (fun t => pyEqStr (dGet d (strN "tool")) t.name) = none := by
    rw [List.find?_eq_none]
    intro t ht
    rw [hno t ht]
    exact Bool.false_ne_true
  have hres : resolvedTool tools parse r = none := by
    unfold resolvedTool
    split
    · rw [hp]
      dsimp only
      rw [hfind]
    · rfl
  rw [runTurn_unresolved tools parse gen callTool sysInstr provider model user r hr hres]
  exact ⟨rfl, rfl, rfl, rfl⟩

/-- C9 witness: the spec's own scenario — no tools discovered, the
backend answers a well-formed `roll_dice` tool call, and the turn
narrates the JSON text itself. -/
theorem unresolved_tool_name_witness :
    (runTurn []
        (fun _ => some [(strN "tool", PyVal.str (strN "roll_dice")),
                        (strN "args", PyVal.obj [])])
        (fun _ => strN "\x7b\"tool\": \"roll_dice\", \"args\": \x7b\x7d\x7d")
        (fun _ _ _ => []) [] [] [] (strN "hi")).displayed
        = strN "\x7b\"tool\": \"roll_dice\", \"args\": \x7b\x7d\x7d"
      ∧ (runTurn []
          (fun _ => some [(strN "tool", PyVal.str (strN "roll_dice")),
                          (strN "args", PyVal.obj [])])
          (fun _ => strN "\x7b\"tool\": \"roll_dice\", \"args\": \x7b\x7d\x7d")
          (fun _ _ _ => []) [] [] [] (strN "hi")).toolCalls = []
      ∧ (runTurn []
          (fun _ => some [(strN "tool", PyVal.str (strN "roll_dice")),
                          (strN "args", PyVal.obj [])])
          (fun _ => strN "\x7b\"tool\": \"roll_dice\", \"args\": \x7b\x7d\x7d")
          (fun _ _ _ => []) [] [] [] (strN "hi")).genCalls
          = [firstCall (strN "hi") [] [] []]
      ∧ (runTurn []
          (fun _ => some [(strN "tool", PyVal.str (strN "roll_dice")),
                          (strN "args", PyVal.obj [])])
          (fun _ => strN "\x7b\"tool\": \"roll_dice\", \"args\": \x7b\x7d\x7d")
          (fun _ _ _ => []) [] [] [] (strN "hi")).events
          = mkEvents (strN "hi") (strN "\x7b\"tool\": \"roll_dice\", \"args\": \x7b\x7d\x7d") :=
  unresolved_tool_name_is_narration []
    (fun _ => some [(strN "tool", PyVal.str (strN "roll_dice")),
                    (strN "args", PyVal.obj [])])
    (fun _ => strN "\x7b\"tool\": \"roll_dice\", \"args\": \x7b\x7d\x7d")
    (fun _ _ _ => []) [] [] [] (strN "hi")
    (strN "\x7b\"tool\": \"roll_dice\", \"args\": \x7b\x7d\x7d")
    [(strN "tool", PyVal.str (strN "roll_dice")), (strN "args", PyVal.obj [])]
    rfl rfl (by simp)

end Storyteller
